import Mathlib

/-!
Shallow embedding of the octocord recording pipeline (Rust sources under
src/): the recorder option record, the quality-tier mappings, the output
path computation, the ffmpeg command builder, the encoder state machine,
the preview frame channel and the device enumeration queries, together
with theorems settling the specification claims about them.

External effects (filesystem, process spawning, OS device probing,
wall-clock time) are passed in as explicit oracle inputs; floating point
(the f32 audio-gain computation) is modelled over the reals.
-/

namespace Octocord

/-- Mirrors `VideoQuality` in src/src/config.rs. -/
inductive VideoQuality
  | low
  | medium
  | high
  | ultra
deriving DecidableEq, Repr

/-- Mirrors `AudioQuality` in src/src/config.rs. -/
inductive AudioQuality
  | low
  | medium
  | high
  | lossless
deriving DecidableEq, Repr

/-- Mirrors `RecorderOptions` in src/src/video.rs.  `audio_gain_db` is an
f32 in the source; it is carried here as a rational, with its use in the
volume-filter threshold modelled over the reals (see `gainFilterOn`). -/
structure RecorderOptions where
  output_directory : String
  video_quality : VideoQuality
  video_bitrate_kbps : Nat
  audio_bitrate_kbps : Nat
  audio_sample_rate : Nat
  frame_rate : Nat
  include_audio : Bool
  include_video : Bool
  include_webcam : Bool
  separate_outputs : Bool
  selected_screen : Option Nat
  audio_device : Option String
  webcam_device : Option String
  ffmpeg_path : String
  audio_gain_db : ℚ
deriving DecidableEq, Repr

/-- Mirrors `RecordingOutputs` in src/src/video.rs; paths are strings. -/
structure RecordingOutputs where
  combined : Option String
  video_only : Option String
  audio_only : Option String
deriving DecidableEq, Repr

/-- Mirrors `crf_for_quality` in src/src/video.rs (u8 result as Nat). -/
def crf_for_quality (quality : VideoQuality) : Nat :=
  match quality with
  | VideoQuality.low => 28
  | VideoQuality.medium => 23
  | VideoQuality.high => 20
  | VideoQuality.ultra => 18

/-- Mirrors `preset_for_quality` in src/src/video.rs: a constant. -/
def preset_for_quality (_quality : VideoQuality) : String :=
  "veryfast"

/-- Mirrors `Config::get_video_bitrate` in src/src/config.rs, which depends
only on the configured video quality (result in kbps). -/
def get_video_bitrate (video_quality : VideoQuality) : Nat :=
  match video_quality with
  | VideoQuality.low => 1000
  | VideoQuality.medium => 2500
  | VideoQuality.high => 5000
  | VideoQuality.ultra => 10000

/-- Mirrors `prepare_output_paths_effective` in src/src/video.rs.  The Rust
function obtains the timestamp from the wall clock (`Local::now()`); here it
is an explicit input.  `PathBuf::join` is modelled as string concatenation
with a slash.  The Rust `Result` return is always `Ok`, so the result is a
plain value. -/
def prepare_output_paths_effective (options : RecorderOptions) (any_video : Bool)
    (timestamp : String) : RecordingOutputs :=
  let base_name := "recording_" ++ timestamp
  let combined :=
    if options.separate_outputs && options.include_audio && any_video then
      none
    else
      some (options.output_directory ++ "/" ++
        (base_name ++ "." ++ (if any_video then "mkv" else "flac")))
  let video_only :=
    if options.separate_outputs && any_video && options.include_audio then
      some (options.output_directory ++ "/" ++ (base_name ++ ".video.mkv"))
    else if !options.include_audio && any_video then
      some (options.output_directory ++ "/" ++
        (base_name ++ "." ++ "mkv"))
    else
      none
  let audio_only :=
    if options.include_audio then
      if options.separate_outputs && any_video then
        some (options.output_directory ++ "/" ++ (base_name ++ ".audio.flac"))
      else if !any_video then
        some (options.output_directory ++ "/" ++
          (base_name ++ "." ++ "flac"))
      else
        none
    else
      none
  { combined := combined, video_only := video_only, audio_only := audio_only }

/-- The output-path table actually realised by
`prepare_output_paths_effective`, written out explicitly for all eight
combinations of (separate_outputs, include_audio, any_video). -/
def outputs_table (separate audio any_video : Bool) (dir base : String) :
    RecordingOutputs :=
  match separate, audio, any_video with
  | false, false, false =>
      ⟨some (dir ++ "/" ++ (base ++ "." ++ "flac")), none, none⟩
  | false, false, true =>
      ⟨some (dir ++ "/" ++ (base ++ "." ++ "mkv")),
       some (dir ++ "/" ++ (base ++ "." ++ "mkv")), none⟩
  | false, true, false =>
      ⟨some (dir ++ "/" ++ (base ++ "." ++ "flac")), none,
       some (dir ++ "/" ++ (base ++ "." ++ "flac"))⟩
  | false, true, true =>
      ⟨some (dir ++ "/" ++ (base ++ "." ++ "mkv")), none, none⟩
  | true, false, false =>
      ⟨some (dir ++ "/" ++ (base ++ "." ++ "flac")), none, none⟩
  | true, false, true =>
      ⟨some (dir ++ "/" ++ (base ++ "." ++ "mkv")),
       some (dir ++ "/" ++ (base ++ "." ++ "mkv")), none⟩
  | true, true, false =>
      ⟨some (dir ++ "/" ++ (base ++ "." ++ "flac")), none,
       some (dir ++ "/" ++ (base ++ "." ++ "flac"))⟩
  | true, true, true =>
      ⟨none, some (dir ++ "/" ++ (base ++ ".video.mkv")),
       some (dir ++ "/" ++ (base ++ ".audio.flac"))⟩

/-- Mirrors `ScreenCaptureInput` in src/src/video.rs: the x11grab input
name and the probed capture resolution. -/
structure ScreenCaptureInput where
  display_input : String
  video_size : String
deriving DecidableEq, Repr

/-- The external state consulted by `build_ffmpeg` in src/src/video.rs:
process environment variables, the memoized backend probe, the screen
resolution probe (`determine_screen_input`), the filesystem and v4l2
accessibility oracles used for webcam resolution, and the wall-clock
timestamp used for output file names. -/
structure BuildEnv where
  wayland_display : Bool
  octocord_use_pipewire : Option String
  display : Option String
  octocord_audio_backend : Option String
  supports_pulse : Bool
  screen_input : Except String ScreenCaptureInput
  path_exists : String → Bool
  v4l2_accessible : String → Bool
  timestamp : String

/-- Mirrors the `OCTOCORD_USE_PIPEWIRE` parse in src/src/video.rs line 260:
the variable must be set to one of "1", "true", "TRUE". -/
def prefer_pipewire (e : BuildEnv) : Bool :=
  match e.octocord_use_pipewire with
  | some v => v == "1" || v == "true" || v == "TRUE"
  | none => false

/-- Global flags appended first in `build_ffmpeg` (src/src/video.rs lines
239-244). -/
def base_args : List String :=
  ["-y", "-hide_banner", "-loglevel", "warning", "-stats", "-threads", "0"]

/-- The even-dimension scale expression (src/src/video.rs line 252). -/
def even_scale_filter : String := "trunc(iw/2)*2:trunc(ih/2)*2"

/-- Result of the video-input portion of `build_ffmpeg` (lines 257-288):
the input arguments, the video map label, and the even-scale flag. -/
structure VideoSection where
  args : List String
  video_map : Option String
  needs_even_scale : Bool
deriving DecidableEq, Repr

/-- Mirrors the video-input branch of `build_ffmpeg` (src/src/video.rs
lines 257-288). -/
def video_input_args (o : RecorderOptions) (e : BuildEnv) :
    Except String VideoSection :=
  if o.include_video then
    if e.wayland_display && prefer_pipewire e && !e.display.isSome then
      Except.ok ⟨["-thread_queue_size", "2048", "-f", "pipewire", "-i", "0"],
        some "0:v", true⟩
    else
      match e.screen_input with
      | Except.error msg => Except.error msg
      | Except.ok si =>
          Except.ok ⟨["-thread_queue_size", "2048", "-f", "x11grab",
            "-framerate", toString o.frame_rate,
            "-probesize", "50M", "-fflags", "+nobuffer",
            "-use_wallclock_as_timestamps", "1",
            "-video_size", si.video_size, "-i", si.display_input],
            some "0:v", true⟩
  else
    Except.ok ⟨[], none, false⟩

/-- Mirrors the audio backend choice in src/src/video.rs lines 293-295:
an explicit `OCTOCORD_AUDIO_BACKEND` override, else pulse when the probe
reports support, else alsa. -/
def audio_backend (e : BuildEnv) : String :=
  match e.octocord_audio_backend with
  | some b => b
  | none => if e.supports_pulse then "pulse" else "alsa"

/-- ASCII lower-casing of a code point, as performed per byte by Rust's
`eq_ignore_ascii_case`. -/
def lower_code (n : Nat) : Nat :=
  if 65 ≤ n ∧ n ≤ 90 then n + 32 else n

/-- Rust's `str::eq_ignore_ascii_case`: equality after ASCII lowering. -/
def eq_ignore_ascii_case (a b : String) : Bool :=
  a.data.map (fun c => lower_code c.toNat) ==
    b.data.map (fun c => lower_code c.toNat)

/-- Mirrors the case-insensitive backend normalisation in line 296. -/
def audio_format (e : BuildEnv) : String :=
  if eq_ignore_ascii_case (audio_backend e) "pulse" then "pulse" else "alsa"

/-- Mirrors the device selection match in src/src/video.rs lines 298-301. -/
def audio_device_arg (o : RecorderOptions) (e : BuildEnv) : String :=
  match audio_format e, o.audio_device with
  | "pulse", some dev => if dev ≠ "default" then dev else "default"
  | _, _ => "default"

/-- Mirrors the audio-input arguments of `build_ffmpeg` (lines 303-307). -/
def audio_input_args (o : RecorderOptions) (e : BuildEnv) : List String :=
  if o.include_audio then
    ["-thread_queue_size", "2048", "-f", audio_format e, "-ac", "2",
     "-ar", toString o.audio_sample_rate, "-i", audio_device_arg o e]
  else []

/-- Mirrors `audio_index` (src/src/video.rs line 308). -/
def audio_index (o : RecorderOptions) : Nat :=
  if o.include_video then 1 else 0

/-- Mirrors the audio map assignment (src/src/video.rs line 309). -/
def audio_map_of (o : RecorderOptions) : Option String :=
  if o.include_audio then some (toString (audio_index o) ++ ":a") else none

/-- Mirrors `webcam_index` (src/src/video.rs lines 346-347). -/
def webcam_index (o : RecorderOptions) : Nat :=
  (if o.include_video then 1 else 0) + (if o.include_audio then 1 else 0)

/-- Mirrors the webcam device resolution chain of `build_ffmpeg` (lines
315-331): take the requested path when it is a /dev/video path that
exists, else scan /dev/video0../dev/video9 for the first existing path;
then keep the result only if the v4l2 accessibility probe succeeds. -/
def resolve_webcam_path (o : RecorderOptions) (e : BuildEnv) : Option String :=
  let requested := o.webcam_device.getD "/dev/video0"
  let resolved :=
    if "/dev/video".data.isPrefixOf requested.data && e.path_exists requested then
      some requested
    else
      ((List.range 10).map (fun i => "/dev/video" ++ toString i)).find?
        e.path_exists
  resolved.bind (fun s => if e.v4l2_accessible s then some s else none)

/-- Mirrors the webcam overlay filter expression (src/src/video.rs lines
350-354). -/
def webcam_filter (idx : Nat) : String :=
  "[" ++ toString idx ++
    ":v]scale=640:-1[cam_scaled];[0:v][cam_scaled]overlay=W-w-40:H-h-40[overlayed];[overlayed]scale="
    ++ even_scale_filter ++ "[vout]"

/-- State produced by the webcam block of `build_ffmpeg` (lines 314-363). -/
structure WebcamSection where
  args : List String
  effective : Bool
  filter_complex : Option String
  video_map : Option String
  needs_even_scale : Bool
deriving DecidableEq, Repr

/-- Mirrors the webcam block of `build_ffmpeg` (src/src/video.rs lines
314-363).  Note the faithful reproduction of the source's behaviour when
the device probe fails: `effective` is cleared and no input is appended,
yet the overlay filter (or the direct webcam map) is still installed with
the computed webcam index. -/
def webcam_section (o : RecorderOptions) (e : BuildEnv)
    (video_map : Option String) (needs_even_scale : Bool) : WebcamSection :=
  if o.include_webcam then
    let resolved := resolve_webcam_path o e
    let wargs :=
      match resolved with
      | some src =>
          ["-thread_queue_size", "512", "-f", "v4l2", "-framerate", "30",
           "-i", src]
      | none => []
    let eff := resolved.isSome
    if o.include_video then
      ⟨wargs, eff, some (webcam_filter (webcam_index o)), some "[vout]", false⟩
    else
      ⟨wargs, eff, none, some (toString (webcam_index o) ++ ":v"),
       needs_even_scale⟩
  else
    ⟨[], false, none, video_map, needs_even_scale⟩

/-- Mirrors the audio gain filter block of `build_ffmpeg` (src/src/video.rs
lines 388-393).  The f32 computation `10f32.powf(db / 20.0)` and its
epsilon comparison are floating point; their boolean outcome, rendered as
the `volume=...` argument when the filter fires, is passed in as
`gain_filter` (`none` when the threshold test is false).  Its real-number
model is `gainFilterOn` below. -/
def gain_filter_args (o : RecorderOptions) (gain_filter : Option String) :
    List String :=
  if o.include_audio then
    match gain_filter with
    | some s => ["-filter:a", s]
    | none => []
  else []

/-- Real-number model of the source's volume-filter threshold (lines
389-390): the filter is emitted exactly when the linear gain
`10^(dB/20)` differs from 1 by more than `f32::EPSILON = 2^-23`. -/
def gainFilterOn (db : ℚ) : Prop :=
  |(10 : ℝ) ^ ((db : ℝ) / 20) - 1| > (1 : ℝ) / 2 ^ 23

/-- Mirrors the stream-mapping and output tail of `build_ffmpeg`
(src/src/video.rs lines 400-461). -/
def output_section (o : RecorderOptions) (video_map amap : Option String)
    (any_video : Bool) (outputs : RecordingOutputs) :
    Except String (List String) :=
  if o.separate_outputs && o.include_audio && any_video then
    match video_map with
    | none => Except.error "Video output requested but no video stream available"
    | some vs =>
      match outputs.video_only with
      | none => Except.error "Expected video-only output path"
      | some vo =>
        match amap with
        | none => Except.error "Audio output requested but no audio stream available"
        | some as0 =>
          match outputs.audio_only with
          | none => Except.error "Expected audio-only output path"
          | some ao =>
            Except.ok
              (["-map", vs, "-c:v", "libx264",
                "-preset", preset_for_quality o.video_quality,
                "-crf", toString (crf_for_quality o.video_quality),
                "-pix_fmt", "yuv420p",
                "-b:v", toString o.video_bitrate_kbps ++ "k", vo] ++
               ["-map", as0, "-c:a", "flac",
                "-ar", toString o.audio_sample_rate, ao])
  else
    match outputs.combined with
    | none => Except.error "Expected combined output path"
    | some co =>
      let v_out_args :=
        match video_map with
        | some vs =>
            ["-map", vs, "-c:v", "libx264",
             "-preset", preset_for_quality o.video_quality,
             "-crf", toString (crf_for_quality o.video_quality),
             "-pix_fmt", "yuv420p",
             "-b:v", toString o.video_bitrate_kbps ++ "k"]
        | none => []
      let a_out_args :=
        match audio_map_of o with
        | some as0 =>
            if video_map.isNone then
              ["-map", as0, "-c:a", "flac",
               "-ar", toString o.audio_sample_rate]
            else
              ["-map", as0, "-c:a", "aac",
               "-b:a", toString o.audio_bitrate_kbps ++ "k",
               "-ar", toString o.audio_sample_rate]
        | none => []
      Except.ok (v_out_args ++ a_out_args ++ [co])

/-- The portion of `build_ffmpeg` following the input sections
(src/src/video.rs lines 365-461): the `-vf` or `-filter_complex`
arguments, the no-video-stream check, the audio gain filter, `-shortest`,
and the mapping/codec/output tail, together with the computed
`RecordingOutputs`. -/
def build_rest (o : RecorderOptions) (e : BuildEnv)
    (gain_filter : Option String) (vy : VideoSection) :
    Except String (List String × RecordingOutputs) :=
  let ws := webcam_section o e vy.video_map vy.needs_even_scale
  let vf_args :=
    if ws.filter_complex.isNone && ws.needs_even_scale then
      ["-vf", "scale=" ++ even_scale_filter]
    else []
  let fc_args :=
    match ws.filter_complex with
    | some f => ["-filter_complex", f]
    | none => []
  let video_map2 :=
    if !o.include_video && ws.effective then
      (if ws.video_map.isNone then some "0:v" else ws.video_map)
    else ws.video_map
  if (o.include_video || ws.effective) && video_map2.isNone &&
      !o.include_audio then
    Except.error "Video/Webcam output requested but no video stream was configured"
  else
    let any_video := o.include_video || ws.effective
    let outputs := prepare_output_paths_effective o any_video e.timestamp
    match output_section o video_map2 (audio_map_of o) any_video outputs with
    | Except.error msg => Except.error msg
    | Except.ok out_args =>
        Except.ok
          (vf_args ++ fc_args ++ gain_filter_args o gain_filter ++
           ["-shortest"] ++ out_args, outputs)

/-- Mirrors `build_ffmpeg` in src/src/video.rs (lines 237-465), minus the
final process spawn: the fully resolved argument vector together with the
computed `RecordingOutputs`.  Argument order follows the source exactly:
global flags, video input, audio input, webcam input, `-vf` or
`-filter_complex`, the audio gain filter, `-shortest`, then per-stream
mapping, codec flags and output paths. -/
def build_ffmpeg (o : RecorderOptions) (e : BuildEnv)
    (gain_filter : Option String) :
    Except String (List String × RecordingOutputs) :=
  match video_input_args o e with
  | Except.error msg => Except.error msg
  | Except.ok vy =>
    match build_rest o e gain_filter vy with
    | Except.error msg => Except.error msg
    | Except.ok p =>
        Except.ok
          (base_args ++ vy.args ++ audio_input_args o e ++
           (webcam_section o e vy.video_map vy.needs_even_scale).args ++ p.1,
           p.2)

/-- Projection of a build result onto its argument vector. -/
def plan_args (r : Except String (List String × RecordingOutputs)) :
    List String :=
  match r with
  | Except.ok p => p.1
  | Except.error _ => []

/-- Projection of a build result onto its output path set. -/
def plan_outputs (r : Except String (List String × RecordingOutputs)) :
    RecordingOutputs :=
  match r with
  | Except.ok p => p.2
  | Except.error _ => ⟨none, none, none⟩

/-- Mirrors the fields of `VideoEncoder` in src/src/video.rs; the process
child handle and the two tokio drain-task handles are identified by
opaque numerals. -/
structure VideoEncoderState where
  options : RecorderOptions
  process : Option Nat
  outputs : Option RecordingOutputs
  stdout_task : Option Nat
  stderr_task : Option Nat
deriving DecidableEq, Repr

/-- External effects performed by the encoder's constructor and `start`. -/
inductive Effect
  | create_dir_all (path : String)
  | check_ffmpeg (path : String)
  | spawn_ffmpeg (args : List String)
deriving DecidableEq, Repr

/-- Mirrors `VideoEncoder::new` (src/src/video.rs lines 53-68): reject a
configuration with no source before touching anything, then create the
output directory (outcome given by the `mkdir_ok` oracle).  The second
component lists the external effects performed, in order. -/
def VideoEncoder.new (o : RecorderOptions) (mkdir_ok : Bool) :
    Except String VideoEncoderState × List Effect :=
  if !o.include_audio && !o.include_video && !o.include_webcam then
    (Except.error "At least one of audio, video, or webcam capture must be enabled",
     [])
  else if mkdir_ok then
    (Except.ok ⟨o, none, none, none, none⟩,
     [Effect.create_dir_all o.output_directory])
  else
    (Except.error ("Failed to create output directory: " ++ o.output_directory),
     [Effect.create_dir_all o.output_directory])

/-- Mirrors `VideoEncoder::start` (src/src/video.rs lines 70-121): return
immediately when a process is already running; otherwise check the ffmpeg
binary (`ffmpeg_ok` oracle), build and spawn the command, hand the drain
tasks off, and record the process handle and outputs.  Returns the call
result, the successor state, and the external effects performed. -/
def VideoEncoder.start (s : VideoEncoderState) (e : BuildEnv)
    (gain_filter : Option String) (ffmpeg_ok : Bool) (pid task1 task2 : Nat) :
    Except String Unit × VideoEncoderState × List Effect :=
  match s.process with
  | some _ => (Except.ok (), s, [])
  | none =>
    if !ffmpeg_ok then
      (Except.error ("ffmpeg binary " ++ s.options.ffmpeg_path ++
        " returned non-zero status"), s,
       [Effect.check_ffmpeg s.options.ffmpeg_path])
    else
      match build_ffmpeg s.options e gain_filter with
      | Except.error msg =>
          (Except.error msg, s, [Effect.check_ffmpeg s.options.ffmpeg_path])
      | Except.ok (args, outs) =>
          (Except.ok (),
           { s with
             process := some pid
             outputs := some outs
             stdout_task := some task1
             stderr_task := some task2 },
           [Effect.check_ffmpeg s.options.ffmpeg_path,
            Effect.spawn_ffmpeg args])

/-- Mirrors a `crossbeam::channel::unbounded` send as used by the capture
loops in src/src/screen.rs line 68 and src/src/webcam.rs line 70: the
frame is appended; an unbounded send never drops and never blocks.
Frames are identified by numerals. -/
def channel_send (q : List Nat) (x : Nat) : List Nat := q ++ [x]

/-- Repeated publishes by a capture loop whose consumer never polls. -/
def publish_all (q : List Nat) (xs : List Nat) : List Nat :=
  xs.foldl channel_send q

/-- Mirrors `try_recv` as used by `get_latest_frame` (src/src/screen.rs
line 102, src/src/webcam.rs line 111): pop the oldest frame, if any. -/
def try_recv (q : List Nat) : Option Nat × List Nat :=
  match q with
  | [] => (none, [])
  | x :: rest => (some x, rest)

/-- Mirrors `get_available_screens` (src/src/screen.rs lines 111-126,
the `screenshots`-feature variant the claim cites).  The `Screen::all()`
result is the oracle input: an error propagates through the source's
question-mark operator; a successful enumeration is formatted (the
source's format string lacks its closing parenthesis, reproduced here),
degrading to a synthetic entry when empty. -/
def get_available_screens (screens : Except String (List (Nat × Nat))) :
    Except String (List String) :=
  match screens with
  | Except.error msg => Except.error msg
  | Except.ok ss =>
      let screen_names := ss.enum.map (fun p =>
        "Screen " ++ toString p.1 ++ " (" ++ toString p.2.1 ++ "x" ++
          toString p.2.2)
      Except.ok (if screen_names.isEmpty then ["Primary Screen"] else screen_names)

/-- Mirrors `get_available_webcams` (src/src/webcam.rs lines 173-188).
The `nokhwa::query` result is the oracle input; an error propagates, an
empty successful enumeration degrades to a synthetic entry. -/
def get_available_webcams (query : Except String (List String)) :
    Except String (List String) :=
  match query with
  | Except.error msg => Except.error msg
  | Except.ok cams =>
      Except.ok (if cams.isEmpty then ["Default Webcam"] else cams)

/-- The designated ALSA host identifier used by the preference ordering in
src/src/audio.rs. -/
def alsa_host : Nat := 0

/-- The cpal state consulted by `get_available_devices` in
src/src/audio.rs: the available host ids, per-host construction and
enumeration results (`none` when `host_from_id` fails; device names are
`none` when `Device::name()` fails), and the default host's enumeration
result. -/
structure AudioEnv where
  available_hosts : List Nat
  host_input_devices : Nat → Option (Except String (List (Option String)))
  default_host_devices : Except String (List (Option String))

/-- One step of the try-id accumulation loop (src/src/audio.rs lines
211-215). -/
def push_unique (acc : List Nat) (id : Nat) : List Nat :=
  if acc.contains id then acc else acc ++ [id]

/-- Mirrors the preferred host ordering (src/src/audio.rs lines 205-215):
ALSA first when available, then the remaining hosts without duplicates. -/
def try_host_ids (avail : List Nat) : List Nat :=
  avail.foldl push_unique (if avail.contains alsa_host then [alsa_host] else [])

/-- Collect the device names whose `name()` call succeeded. -/
def device_names (ds : List (Option String)) : List String := ds.filterMap id

/-- Mirrors `get_available_devices` (src/src/audio.rs lines 204-247): the
first preferred host that constructs, enumerates and yields at least one
name wins; otherwise fall back to the default host, where an enumeration
error propagates through the question-mark operator and an empty name
list degrades to the synthetic "default" entry. -/
def get_available_devices (e : AudioEnv) : Except String (List String) :=
  match (try_host_ids e.available_hosts).findSome? (fun id =>
      match e.host_input_devices id with
      | some (Except.ok ds) =>
          let ns := device_names ds
          if ns.isEmpty then none else some ns
      | _ => none) with
  | some ns => Except.ok ns
  | none =>
      match e.default_host_devices with
      | Except.error msg => Except.error msg
      | Except.ok ds =>
          let ns := device_names ds
          Except.ok (if ns.isEmpty then ["default"] else ns)

/-- Number of `-i` input markers in an argument vector. -/
def count_inputs (args : List String) : Nat := args.count "-i"

instance {ε α : Type} [DecidableEq ε] [DecidableEq α] : DecidableEq (Except ε α)
  | Except.error e₁, Except.error e₂ =>
      if h : e₁ = e₂ then isTrue (by rw [h])
      else isFalse (fun hc => by cases hc; exact h rfl)
  | Except.error _, Except.ok _ => isFalse (fun hc => Except.noConfusion hc)
  | Except.ok _, Except.error _ => isFalse (fun hc => Except.noConfusion hc)
  | Except.ok a₁, Except.ok a₂ =>
      if h : a₁ = a₂ then isTrue (by rw [h])
      else isFalse (fun hc => by cases hc; exact h rfl)

/-- A representative recorder configuration (the defaults of the test in
src/src/test_fixes.rs, with audio on). -/
def baseOptions : RecorderOptions where
  output_directory := "/out"
  video_quality := VideoQuality.high
  video_bitrate_kbps := 5000
  audio_bitrate_kbps := 256
  audio_sample_rate := 48000
  frame_rate := 30
  include_audio := true
  include_video := true
  include_webcam := false
  separate_outputs := false
  selected_screen := none
  audio_device := none
  webcam_device := none
  ffmpeg_path := "ffmpeg"
  audio_gain_db := 0

/-- A representative X11 environment with a successful screen probe and no
webcam devices. -/
def idleEnv : BuildEnv where
  wayland_display := false
  octocord_use_pipewire := none
  display := some ":0"
  octocord_audio_backend := none
  supports_pulse := true
  screen_input := Except.ok ⟨":0.0+0,0", "1920x1080"⟩
  path_exists := fun _ => false
  v4l2_accessible := fun _ => false
  timestamp := "20240101_120000"

/-- Video-plus-webcam configuration (audio off) whose webcam device path
exists but fails the v4l2 accessibility probe under `probeFailEnv`. -/
def oWebcamOn : RecorderOptions :=
  { baseOptions with
      include_audio := false
      include_webcam := true
      webcam_device := some "/dev/video0" }

/-- The same configuration with the webcam excluded. -/
def oWebcamOff : RecorderOptions := { baseOptions with include_audio := false }

/-- Environment where every device path exists but the v4l2 accessibility
probe fails for all of them. -/
def probeFailEnv : BuildEnv := { idleEnv with path_exists := fun _ => true }

/-- Audio-plus-webcam configuration (video off) with an existing,
accessible webcam device under `camOkEnv`. -/
def oAudioWebcam : RecorderOptions :=
  { baseOptions with
      include_video := false
      include_webcam := true
      webcam_device := some "/dev/video0" }

/-- Environment where every device path exists and passes the v4l2
accessibility probe. -/
def camOkEnv : BuildEnv :=
  { idleEnv with
      path_exists := fun _ => true
      v4l2_accessible := fun _ => true }

end Octocord

namespace Octocord

/-- C1 (amended): `prepare_output_paths_effective` realises, for all eight
combinations of (separate_outputs, include_audio, any_video), exactly the
table `outputs_table`; this agrees with the spec table except that for
include_audio = false with any_video = true the `video_only` field is
additionally populated with the same `<name>.mkv` path as `combined`, and
for include_audio = true with any_video = false the `audio_only` field is
additionally populated with the same `<name>.flac` path as `combined`. -/
theorem prepare_output_paths_matches_table (o : RecorderOptions) (av : Bool)
    (ts : String) :
    prepare_output_paths_effective o av ts =
      outputs_table o.separate_outputs o.include_audio av o.output_directory
        ("recording_" ++ ts) := by
  cases hs : o.separate_outputs <;> cases ha : o.include_audio <;> cases av <;>
    simp [prepare_output_paths_effective, outputs_table, hs, ha]

/-- C1 counterexample: with separate_outputs = false, include_audio = false
and a video stream present, the claim asserts that only `combined` is
populated, but the code also fills `video_only` (with the very same
`<name>.mkv` path). -/
theorem output_table_claim_counterexample :
    (prepare_output_paths_effective
        { baseOptions with include_audio := false } true
        "20240101_120000").video_only ≠ none ∧
    (prepare_output_paths_effective
        { baseOptions with include_audio := false } true
        "20240101_120000").video_only =
      some "/out/recording_20240101_120000.mkv" ∧
    (prepare_output_paths_effective
        { baseOptions with include_audio := false } true
        "20240101_120000").combined =
      some "/out/recording_20240101_120000.mkv" := by
  refine ⟨?_, ?_, ?_⟩ <;> decide

/-- C3 (amended): the preview frame channel created by `ScreenCapture::new`
and `WebcamCapture::new` is unbounded; a publish always succeeds without
blocking or dropping, so under a consumer that never polls all published
frames remain retrievable, in FIFO order. -/
theorem unbounded_queue_retains_all_frames :
    (∀ q xs : List Nat, publish_all q xs = q ++ xs) ∧
    (∀ (x : Nat) (q : List Nat), try_recv (x :: q) = (some x, q)) := by
  constructor
  · intro q xs
    induction xs generalizing q with
    | nil => simp [publish_all]
    | cons x xs ih =>
        have hstep : publish_all q (x :: xs) = publish_all (q ++ [x]) xs := rfl
        rw [hstep, ih]
        simp
  · intro x q
    rfl

/-- C3 counterexample: after three publish attempts into the (actually
unbounded) queue, all three frames remain retrievable, not exactly two as
the capacity-2 drop-newest claim requires. -/
theorem bounded_queue_claim_counterexample :
    publish_all [] [1, 2, 3] = [1, 2, 3] ∧
    (publish_all [] [1, 2, 3]).length ≠ 2 := by
  decide

/-- C5: a configuration including none of audio, video or webcam is
rejected by `VideoEncoder::new` with the configuration error, and the
constructor performs no external effect (no directory creation, no probe,
no spawn) on that path. -/
theorem new_rejects_empty_config (o : RecorderOptions) (mkdir_ok : Bool)
    (ha : o.include_audio = false) (hv : o.include_video = false)
    (hw : o.include_webcam = false) :
    VideoEncoder.new o mkdir_ok =
      (Except.error "At least one of audio, video, or webcam capture must be enabled",
       []) := by
  simp [VideoEncoder.new, ha, hv, hw]

/-- C5 witness: the rejection at a concrete all-sources-off configuration. -/
theorem new_rejects_empty_config_witness :
    VideoEncoder.new
      { baseOptions with
        include_audio := false, include_video := false, include_webcam := false }
      true =
    (Except.error "At least one of audio, video, or webcam capture must be enabled",
     []) :=
  new_rejects_empty_config _ true rfl rfl rfl

/-- C7: across the tiers Low, Medium, High, Ultra, the constant-rate-factor
values are exactly 28, 23, 20, 18 (strictly decreasing), the target video
bitrates are exactly 1000, 2500, 5000, 10000 kbps, i.e. 1, 2.5, 5, 10 Mbps
(strictly increasing), and the preset is the same constant for all tiers. -/
theorem quality_tier_mapping :
    crf_for_quality VideoQuality.low = 28 ∧
    crf_for_quality VideoQuality.medium = 23 ∧
    crf_for_quality VideoQuality.high = 20 ∧
    crf_for_quality VideoQuality.ultra = 18 ∧
    crf_for_quality VideoQuality.ultra < crf_for_quality VideoQuality.high ∧
    crf_for_quality VideoQuality.high < crf_for_quality VideoQuality.medium ∧
    crf_for_quality VideoQuality.medium < crf_for_quality VideoQuality.low ∧
    get_video_bitrate VideoQuality.low = 1000 ∧
    get_video_bitrate VideoQuality.medium = 2500 ∧
    get_video_bitrate VideoQuality.high = 5000 ∧
    get_video_bitrate VideoQuality.ultra = 10000 ∧
    get_video_bitrate VideoQuality.low < get_video_bitrate VideoQuality.medium ∧
    get_video_bitrate VideoQuality.medium < get_video_bitrate VideoQuality.high ∧
    get_video_bitrate VideoQuality.high < get_video_bitrate VideoQuality.ultra ∧
    (∀ q, preset_for_quality q = "veryfast") :=
  ⟨rfl, rfl, rfl, rfl, by decide, by decide, by decide, rfl, rfl, rfl, rfl,
   by decide, by decide, by decide, fun q => by cases q <;> rfl⟩

/-- C10: calling `start` while the external process handle is present
returns success immediately, leaves the whole recorder state unchanged and
performs no external effect (no probe, no spawn). -/
theorem start_noop_when_running (s : VideoEncoderState) (e : BuildEnv)
    (gf : Option String) (fok : Bool) (pid t1 t2 p : Nat)
    (h : s.process = some p) :
    VideoEncoder.start s e gf fok pid t1 t2 = (Except.ok (), s, []) := by
  unfold VideoEncoder.start
  rw [h]

/-- C10 witness: idempotence of `start` at a concrete running state. -/
theorem start_noop_when_running_witness :
    VideoEncoder.start ⟨baseOptions, some 7, none, none, none⟩ idleEnv none
      true 1 2 3 =
    (Except.ok (), ⟨baseOptions, some 7, none, none, none⟩, []) :=
  start_noop_when_running _ idleEnv none true 1 2 3 7 rfl

/-- C2 (amended): the command builder is a function of the recording
configuration, the consulted environment state (environment variables,
backend probe result, screen probe result and the session timestamp) and
the gain-filter outcome: equal inputs yield byte-identical argument
vectors and identical output path sets. -/
theorem build_ffmpeg_deterministic (o₁ o₂ : RecorderOptions)
    (e₁ e₂ : BuildEnv) (g₁ g₂ : Option String)
    (ho : o₁ = o₂) (he : e₁ = e₂) (hg : g₁ = g₂) :
    build_ffmpeg o₁ e₁ g₁ = build_ffmpeg o₂ e₂ g₂ := by
  rw [ho, he, hg]

/-- C2 witness: determinism instantiated at a concrete configuration. -/
theorem build_ffmpeg_deterministic_witness :
    build_ffmpeg baseOptions idleEnv none = build_ffmpeg baseOptions idleEnv none :=
  build_ffmpeg_deterministic baseOptions baseOptions idleEnv idleEnv none none
    rfl rfl rfl

/-- C2 counterexample: two builds with identical configuration, identical
environment variables and identical probe results, differing only in the
wall-clock timestamp taken at build time, produce different output path
sets, so (configuration, environment, probe result) alone do not determine
the command plan. -/
theorem build_ffmpeg_timestamp_counterexample :
    build_ffmpeg { baseOptions with include_video := false }
        { idleEnv with timestamp := "20240101_000000" } none ≠
      build_ffmpeg { baseOptions with include_video := false }
        { idleEnv with timestamp := "20240101_000001" } none ∧
    (plan_outputs (build_ffmpeg { baseOptions with include_video := false }
        { idleEnv with timestamp := "20240101_000000" } none)).combined =
      some "/out/recording_20240101_000000.flac" ∧
    (plan_outputs (build_ffmpeg { baseOptions with include_video := false }
        { idleEnv with timestamp := "20240101_000001" } none)).combined =
      some "/out/recording_20240101_000001.flac" := by
  refine ⟨?_, ?_, ?_⟩ <;> decide

/-- Helper: a list of the shape `a ++ b ++ g ++ s ++ t` splits around the
`g ++ s` kernel. -/
theorem exists_mid_tail (a b g s t : List String) :
    ∃ mid tail, a ++ b ++ g ++ s ++ t = mid ++ g ++ s ++ tail :=
  ⟨a ++ b, t, by simp [List.append_assoc]⟩

/-- Helper: a successful `build_rest` always has the gain filter followed
by `-shortest` between the filter arguments and the mapping tail. -/
theorem build_rest_ok_shape (o : RecorderOptions) (e : BuildEnv)
    (gf : Option String) (vy : VideoSection)
    (p : List String × RecordingOutputs)
    (h : build_rest o e gf vy = Except.ok p) :
    ∃ mid tail, p.1 = mid ++ gain_filter_args o gf ++ ["-shortest"] ++ tail := by
  unfold build_rest at h
  dsimp only at h
  repeat' split at h
  all_goals
    first
      | exact Except.noConfusion h
      | (cases h; exact exists_mid_tail _ _ _ _ _)

/-- Helper: every successful build decomposes as the global flags, then
the video, audio and webcam input sections in that fixed order, then the
filter arguments, the gain filter, `-shortest`, and the mapping tail. -/
theorem build_ffmpeg_args_decompose (o : RecorderOptions) (e : BuildEnv)
    (gf : Option String) (args : List String) (outs : RecordingOutputs)
    (h : build_ffmpeg o e gf = Except.ok (args, outs)) :
    ∃ vy, video_input_args o e = Except.ok vy ∧
      ∃ mid tail, args = base_args ++ vy.args ++ audio_input_args o e ++
        (webcam_section o e vy.video_map vy.needs_even_scale).args ++ mid ++
        gain_filter_args o gf ++ ["-shortest"] ++ tail := by
  unfold build_ffmpeg at h
  split at h
  · exact Except.noConfusion h
  · rename_i vy hv
    split at h
    · exact Except.noConfusion h
    · rename_i p hr
      cases h
      obtain ⟨mid, tail, hp⟩ := build_rest_ok_shape o e gf vy p hr
      exact ⟨vy, hv, mid, tail, by rw [hp]; simp [List.append_assoc]⟩

/-- Helper: an upper bound on the natural logarithm of ten. -/
theorem log_ten_le_nine : Real.log 10 ≤ 9 := by
  have h := Real.log_le_sub_one_of_pos (by norm_num : (0:ℝ) < 10)
  linarith

/-- Helper: a lower bound on the natural logarithm of ten. -/
theorem two_le_log_ten : (2 : ℝ) ≤ Real.log 10 := by
  rw [Real.le_log_iff_exp_le (by norm_num : (0:ℝ) < 10)]
  have h1 : Real.exp 2 = Real.exp 1 * Real.exp 1 := by
    rw [← Real.exp_add]; norm_num
  have h2 := Real.exp_one_lt_d9
  have h3 := Real.exp_pos 1
  nlinarith

/-- Helper: the threshold test fires for any gain of at least 6 dB. -/
theorem gainOn_of_pos (db : ℚ) (h : (3 : ℝ) / 10 ≤ (db : ℝ) / 20) :
    gainFilterOn db := by
  unfold gainFilterOn
  rw [Real.rpow_def_of_pos (by norm_num : (0:ℝ) < 10)]
  have hlog := two_le_log_ten
  have hlog9 := log_ten_le_nine
  have hx : (3:ℝ)/5 ≤ Real.log 10 * ((db : ℝ) / 20) := by nlinarith
  have h2 := Real.add_one_le_exp (Real.log 10 * ((db : ℝ) / 20))
  have h3 : (0:ℝ) ≤ Real.exp (Real.log 10 * ((db : ℝ) / 20)) - 1 := by
    linarith
  rw [abs_of_nonneg h3]
  have h4 : (1:ℝ)/2^23 < 3/5 := by norm_num
  linarith

/-- Helper: the threshold test fires for any gain of at most -6 dB. -/
theorem gainOn_of_neg (db : ℚ) (h : (db : ℝ) / 20 ≤ -(3 : ℝ) / 10) :
    gainFilterOn db := by
  unfold gainFilterOn
  rw [Real.rpow_def_of_pos (by norm_num : (0:ℝ) < 10)]
  have hlog := two_le_log_ten
  have hx : Real.log 10 * ((db : ℝ) / 20) ≤ -(3:ℝ)/5 := by nlinarith
  have h1 : Real.exp (Real.log 10 * ((db : ℝ) / 20)) ≤ Real.exp (-(3:ℝ)/5) :=
    Real.exp_le_exp.mpr hx
  have h2 : Real.exp (-(3:ℝ)/5) = (Real.exp ((3:ℝ)/5))⁻¹ := by
    rw [← Real.exp_neg]
    norm_num
  have h3 : (8:ℝ)/5 ≤ Real.exp ((3:ℝ)/5) := by
    have := Real.add_one_le_exp ((3:ℝ)/5)
    linarith
  have hp : (0:ℝ) < Real.exp ((3:ℝ)/5) := Real.exp_pos _
  have h4 : (Real.exp ((3:ℝ)/5))⁻¹ ≤ ((8:ℝ)/5)⁻¹ := by
    apply inv_anti₀ (by norm_num) h3
  have h5 : Real.exp (Real.log 10 * ((db : ℝ) / 20)) ≤ 5/8 := by
    rw [h2] at h1
    have : ((8:ℝ)/5)⁻¹ = 5/8 := by norm_num
    linarith
  have h6 : Real.exp (Real.log 10 * ((db : ℝ) / 20)) - 1 ≤ 0 := by linarith
  rw [abs_of_nonpos h6]
  have h7 : (1:ℝ)/2^23 < 3/8 := by norm_num
  linarith

/-- Helper: the threshold test does not fire at exactly 0 dB. -/
theorem gainOff_zero : ¬ gainFilterOn 0 := by
  unfold gainFilterOn
  have h0 : ((0:ℚ) : ℝ) / 20 = 0 := by norm_num
  rw [h0, Real.rpow_zero]
  norm_num

/-- Helper: the threshold test does not fire at the tiny nonzero gain of
one billionth of a decibel, since the linear gain is then within
`f32::EPSILON` of one. -/
theorem gainOff_tiny : ¬ gainFilterOn (1 / 1000000000) := by
  unfold gainFilterOn
  rw [Real.rpow_def_of_pos (by norm_num : (0:ℝ) < 10)]
  have hq : (((1 : ℚ) / 1000000000 : ℚ) : ℝ) = 1 / 1000000000 := by
    norm_num
  rw [hq]
  have hl0 : (0:ℝ) ≤ Real.log 10 := Real.log_nonneg (by norm_num)
  have hl9 : Real.log 10 ≤ 9 := log_ten_le_nine
  have hx0 : (0:ℝ) ≤ Real.log 10 * ((1:ℝ) / 1000000000 / 20) := by positivity
  have hxb : Real.log 10 * ((1:ℝ) / 1000000000 / 20) ≤ 9 / 20000000000 := by
    nlinarith
  have h1 := Real.add_one_le_exp
    (-(Real.log 10 * ((1:ℝ) / 1000000000 / 20)))
  rw [Real.exp_neg] at h1
  have hepos := Real.exp_pos (Real.log 10 * ((1:ℝ) / 1000000000 / 20))
  have h3 : (1 - Real.log 10 * ((1:ℝ) / 1000000000 / 20)) *
      Real.exp (Real.log 10 * ((1:ℝ) / 1000000000 / 20)) ≤ 1 := by
    have h2 : 1 - Real.log 10 * ((1:ℝ) / 1000000000 / 20) ≤
        (Real.exp (Real.log 10 * ((1:ℝ) / 1000000000 / 20)))⁻¹ := by
      linarith
    calc (1 - Real.log 10 * ((1:ℝ) / 1000000000 / 20)) *
        Real.exp (Real.log 10 * ((1:ℝ) / 1000000000 / 20)) ≤
        (Real.exp (Real.log 10 * ((1:ℝ) / 1000000000 / 20)))⁻¹ *
        Real.exp (Real.log 10 * ((1:ℝ) / 1000000000 / 20)) := by nlinarith
      _ = 1 := inv_mul_cancel₀ (ne_of_gt hepos)
  have h4 : Real.exp (Real.log 10 * ((1:ℝ) / 1000000000 / 20)) - 1 ≤
      2 * (Real.log 10 * ((1:ℝ) / 1000000000 / 20)) := by nlinarith
  have h5 : (0:ℝ) ≤ Real.exp (Real.log 10 * ((1:ℝ) / 1000000000 / 20)) - 1 := by
    have := Real.add_one_le_exp (Real.log 10 * ((1:ℝ) / 1000000000 / 20))
    linarith
  rw [not_lt, abs_of_nonneg h5]
  have h6 : (9:ℝ) / 10000000000 ≤ 1/2^23 := by norm_num
  linarith

/-- If a `findSome?` scan returns a value, some element produced it. -/
theorem exists_of_findSome_eq_some {α β : Type} {l : List α} {f : α → Option β}
    {b : β} (h : l.findSome? f = some b) : ∃ a, f a = some b := by
  induction l with
  | nil => simp [List.findSome?] at h
  | cons x xs ih =>
      rw [List.findSome?] at h
      cases hx : f x with
      | some y => rw [hx] at h; exact ⟨x, hx.trans h⟩
      | none => rw [hx] at h; exact ih h

/-- C8 (amended): the audio volume filter is governed by the source's
threshold test, whose real-number model is
|10^(dB/20) - 1| > f32::EPSILON = 2^-23: the test fails at exactly 0 dB
(filter absent) and fires at -30, -6, 6 and 12 dB (filter present with the
linear factor 10^(dB/20)); in the built command, the gain filter section
is empty exactly when audio is excluded or the test does not fire, and
every successful build carries that section between the input/filter
arguments and `-shortest`.  Sufficiently small nonzero gains also fail
the test (see the counterexample), so presence is not equivalent to
dB ≠ 0. -/
theorem audio_gain_filter_threshold :
    ¬ gainFilterOn 0 ∧ gainFilterOn (-30) ∧ gainFilterOn (-6) ∧
    gainFilterOn 6 ∧ gainFilterOn 12 ∧
    (∀ (o : RecorderOptions) (gf : Option String),
      gain_filter_args o gf = [] ↔ o.include_audio = false ∨ gf = none) ∧
    (∀ (o : RecorderOptions) (e : BuildEnv) (gf : Option String)
        (args : List String) (outs : RecordingOutputs),
      build_ffmpeg o e gf = Except.ok (args, outs) →
      ∃ pre post, args = pre ++ gain_filter_args o gf ++ post) := by
  refine ⟨gainOff_zero, ?_, ?_, ?_, ?_, ?_, ?_⟩
  · exact gainOn_of_neg _ (by norm_num)
  · exact gainOn_of_neg _ (by norm_num)
  · exact gainOn_of_pos _ (by norm_num)
  · exact gainOn_of_pos _ (by norm_num)
  · intro o gf
    unfold gain_filter_args
    cases ha : o.include_audio with
    | false => simp
    | true => cases gf <;> simp
  · intro o e gf args outs h
    obtain ⟨vy, hv, mid, tail, hshape⟩ :=
      build_ffmpeg_args_decompose o e gf args outs h
    exact ⟨base_args ++ vy.args ++ audio_input_args o e ++
      (webcam_section o e vy.video_map vy.needs_even_scale).args ++ mid,
      ["-shortest"] ++ tail, by rw [hshape]; simp [List.append_assoc]⟩

/-- C8 witness: the gain-filter placement applied at a concrete build with
audio included and a firing threshold test. -/
theorem audio_gain_filter_threshold_witness :
    ∃ pre post,
      plan_args (build_ffmpeg baseOptions idleEnv (some "volume=1.995")) =
        pre ++ gain_filter_args baseOptions (some "volume=1.995") ++ post :=
  audio_gain_filter_threshold.2.2.2.2.2.2 baseOptions idleEnv
    (some "volume=1.995")
    (plan_args (build_ffmpeg baseOptions idleEnv (some "volume=1.995")))
    (plan_outputs (build_ffmpeg baseOptions idleEnv (some "volume=1.995")))
    rfl

/-- C8 counterexample: the gain of one billionth of a decibel is nonzero,
yet the code's threshold test does not fire for it, and the corresponding
build carries no volume filter, contradicting the claim that the filter is
present for every nonzero gain. -/
theorem audio_gain_small_nonzero_counterexample :
    ((1 : ℚ) / 1000000000 ≠ 0) ∧ ¬ gainFilterOn (1 / 1000000000) ∧
    "-filter:a" ∉ plan_args (build_ffmpeg
      { baseOptions with audio_gain_db := 1 / 1000000000 } idleEnv none) := by
  refine ⟨by norm_num, gainOff_tiny, by decide⟩

/-- C9 (amended): each enumeration query degrades to a single synthetic
default entry when the underlying enumeration succeeds with zero devices,
and every successful result is non-empty; but an error of the underlying
enumeration propagates to the caller instead of degrading (shown for the
screen and camera queries, and for the audio query when no preferred host
yields names and the default host's enumeration fails). -/
theorem enumeration_degrades_only_on_empty :
    get_available_screens (Except.ok []) = Except.ok ["Primary Screen"] ∧
    get_available_webcams (Except.ok []) = Except.ok ["Default Webcam"] ∧
    get_available_devices ⟨[], fun _ => none, Except.ok []⟩ =
      Except.ok ["default"] ∧
    (∀ msg, get_available_screens (Except.error msg) = Except.error msg) ∧
    (∀ msg, get_available_webcams (Except.error msg) = Except.error msg) ∧
    (∀ msg, get_available_devices ⟨[], fun _ => none, Except.error msg⟩ =
      Except.error msg) ∧
    (∀ ss, ∃ ns, get_available_screens (Except.ok ss) = Except.ok ns ∧
      ns ≠ []) ∧
    (∀ cs, ∃ ns, get_available_webcams (Except.ok cs) = Except.ok ns ∧
      ns ≠ []) ∧
    (∀ (e : AudioEnv) (ns : List String),
      get_available_devices e = Except.ok ns → ns ≠ []) := by
  refine ⟨rfl, rfl, rfl, fun msg => rfl, fun msg => rfl, fun msg => rfl,
    ?_, ?_, ?_⟩
  · intro ss
    refine ⟨_, rfl, ?_⟩
    cases ss with
    | nil => simp
    | cons s ss => simp [List.enum_cons]
  · intro cs
    refine ⟨_, rfl, ?_⟩
    cases cs with
    | nil => simp
    | cons c cs => simp
  · intro e ns h
    unfold get_available_devices at h
    cases hf : (try_host_ids e.available_hosts).findSome? (fun id =>
        match e.host_input_devices id with
        | some (Except.ok ds) =>
            let ns := device_names ds
            if ns.isEmpty then none else some ns
        | _ => none) with
    | some ns0 =>
        rw [hf] at h
        cases h
        obtain ⟨a, ha⟩ := exists_of_findSome_eq_some hf
        revert ha
        cases e.host_input_devices a with
        | none => simp
        | some r =>
            cases r with
            | error m => simp
            | ok ds =>
                simp only []
                intro ha
                by_cases hemp : (device_names ds).isEmpty
                · simp [hemp] at ha
                · simp [hemp] at ha
                  rw [← ha]
                  simpa [List.isEmpty_iff] using hemp
    | none =>
        rw [hf] at h
        cases hd : e.default_host_devices with
        | error m => rw [hd] at h; cases h
        | ok ds =>
            rw [hd] at h
            cases h
            by_cases hemp : (device_names ds).isEmpty
            · simp [hemp]
            · simp [hemp]
              simpa [List.isEmpty_iff] using hemp

/-- C9 counterexample: an error from the underlying screen enumeration
(`Screen::all()`) is not absorbed: the query fails instead of returning a
synthetic default entry. -/
theorem enumeration_error_counterexample :
    get_available_screens (Except.error "enumeration failed") =
      Except.error "enumeration failed" := rfl

/-- C9 witness: non-emptiness of a successful audio enumeration applied at
a concrete environment. -/
theorem enumeration_degrades_only_on_empty_witness :
    (["default"] : List String) ≠ [] :=
  enumeration_degrades_only_on_empty.2.2.2.2.2.2.2.2
    ⟨[], fun _ => none, Except.ok []⟩ ["default"] rfl

/-- Helper: the video input section contributes exactly one `-i` marker
when video is included and none otherwise. -/
theorem video_input_args_count (o : RecorderOptions) (e : BuildEnv)
    (vy : VideoSection) (hv : video_input_args o e = Except.ok vy)
    (hscr : ∀ si, e.screen_input = Except.ok si →
      si.display_input ≠ "-i" ∧ si.video_size ≠ "-i")
    (hfr : toString o.frame_rate ≠ "-i") :
    count_inputs vy.args = (if o.include_video then 1 else 0) := by
  unfold video_input_args at hv
  cases hb : o.include_video with
  | false =>
      rw [hb] at hv
      simp only [Bool.false_eq_true, if_false] at hv
      cases hv
      decide
  | true =>
      rw [hb] at hv
      simp only [if_true] at hv
      split at hv
      · cases hv
        decide
      · cases hsi : e.screen_input with
        | error m => rw [hsi] at hv; exact Except.noConfusion hv
        | ok si =>
            rw [hsi] at hv
            cases hv
            have h1 : (si.display_input == "-i") = false :=
              beq_eq_false_iff_ne.mpr (hscr si hsi).1
            have h2 : (si.video_size == "-i") = false :=
              beq_eq_false_iff_ne.mpr (hscr si hsi).2
            have h3 : (toString o.frame_rate == "-i") = false :=
              beq_eq_false_iff_ne.mpr hfr
            simp [count_inputs, List.count_cons, h1, h2, h3]

/-- Helper: the audio input section contributes exactly one `-i` marker
when audio is included and none otherwise. -/
theorem audio_input_args_count (o : RecorderOptions) (e : BuildEnv)
    (hdev : audio_device_arg o e ≠ "-i")
    (hsr : toString o.audio_sample_rate ≠ "-i") :
    count_inputs (audio_input_args o e) = (if o.include_audio then 1 else 0) := by
  have hfmt : audio_format e ≠ "-i" := by
    unfold audio_format
    split <;> decide
  cases hb : o.include_audio with
  | false => simp [audio_input_args, hb, count_inputs]
  | true =>
      have h1 : (audio_device_arg o e == "-i") = false :=
        beq_eq_false_iff_ne.mpr hdev
      have h2 : (toString o.audio_sample_rate == "-i") = false :=
        beq_eq_false_iff_ne.mpr hsr
      have h3 : (audio_format e == "-i") = false :=
        beq_eq_false_iff_ne.mpr hfmt
      simp [audio_input_args, hb, count_inputs, List.count_cons, h1, h2, h3]

/-- C6: when the webcam is included and resolves to an accessible device,
the inputs are appended in the fixed order video, audio, webcam (each only
if included), the audio mapping index equals the number of inputs appended
before the audio input, and the webcam index used in the overlay filter or
webcam mapping equals the number of inputs appended before the webcam
input, for every combination of (video included, audio included).  The
hypotheses require only that the probed device and format strings are not
themselves the literal flag `-i`. -/
theorem input_indices_equal_prior_input_count (o : RecorderOptions)
    (e : BuildEnv) (vy : VideoSection)
    (hv : video_input_args o e = Except.ok vy)
    (hwc : o.include_webcam = true)
    (hacc : (resolve_webcam_path o e).isSome = true)
    (hscr : ∀ si, e.screen_input = Except.ok si →
      si.display_input ≠ "-i" ∧ si.video_size ≠ "-i")
    (hdev : audio_device_arg o e ≠ "-i")
    (hcam : ∀ s, resolve_webcam_path o e = some s → s ≠ "-i")
    (hfr : toString o.frame_rate ≠ "-i")
    (hsr : toString o.audio_sample_rate ≠ "-i") :
    count_inputs vy.args = (if o.include_video then 1 else 0) ∧
    (o.include_audio = true → audio_index o = count_inputs vy.args) ∧
    count_inputs (audio_input_args o e) =
      (if o.include_audio then 1 else 0) ∧
    webcam_index o = count_inputs (vy.args ++ audio_input_args o e) ∧
    count_inputs (webcam_section o e vy.video_map vy.needs_even_scale).args
      = 1 ∧
    (∀ gf args outs, build_ffmpeg o e gf = Except.ok (args, outs) →
      ∃ rest, args = base_args ++ vy.args ++ audio_input_args o e ++
        (webcam_section o e vy.video_map vy.needs_even_scale).args ++ rest) := by
  have hvc := video_input_args_count o e vy hv hscr hfr
  have hac := audio_input_args_count o e hdev hsr
  obtain ⟨s, hs⟩ := Option.isSome_iff_exists.mp hacc
  refine ⟨hvc, ?_, hac, ?_, ?_, ?_⟩
  · intro ha
    rw [hvc]
    unfold audio_index
    cases o.include_video <;> rfl
  · unfold count_inputs at *
    rw [List.count_append]
    unfold webcam_index
    rw [hvc, hac]
  · unfold webcam_section
    rw [hwc, hs]
    have h1 : (s == "-i") = false := beq_eq_false_iff_ne.mpr (hcam s hs)
    simp only [if_true]
    cases o.include_video <;>
      simp [count_inputs, List.count_cons, h1]
  · intro gf args outs h
    obtain ⟨vy2, hv2, mid, tail, hshape⟩ :=
      build_ffmpeg_args_decompose o e gf args outs h
    rw [hv] at hv2
    cases hv2
    exact ⟨mid ++ gain_filter_args o gf ++ ["-shortest"] ++ tail,
      by simpa [List.append_assoc] using hshape⟩

/-- C6 witness: the webcam mapping index equals the number of earlier
inputs at a concrete configuration with video off, audio on and an
accessible webcam. -/
theorem input_indices_witness :
    webcam_index oAudioWebcam =
      count_inputs ((⟨[], none, false⟩ : VideoSection).args ++
        audio_input_args oAudioWebcam camOkEnv) :=
  (input_indices_equal_prior_input_count oAudioWebcam camOkEnv
    ⟨[], none, false⟩ rfl rfl (by decide)
    (by intro si h; cases h; exact ⟨by decide, by decide⟩)
    (by decide)
    (by
      intro s h
      rw [show resolve_webcam_path oAudioWebcam camOkEnv = some "/dev/video0"
        from rfl] at h
      cases h
      decide)
    (by decide) (by decide)).2.2.2.1

/-- C4: with video on, audio off, webcam requested but failing the v4l2
accessibility probe, the code clears `effective_include_webcam` and logs
that it continues without the webcam, yet still installs the overlay
`-filter_complex` graph referencing webcam input index 1 and maps
`[vout]`, although only one input (the screen) was added; the plan
therefore differs from the webcam-off plan, which carries a plain `-vf`
scale filter instead. -/
theorem webcam_disabled_plan_divergence :
    "-filter_complex" ∈ plan_args (build_ffmpeg oWebcamOn probeFailEnv none) ∧
    webcam_filter 1 ∈ plan_args (build_ffmpeg oWebcamOn probeFailEnv none) ∧
    count_inputs (plan_args (build_ffmpeg oWebcamOn probeFailEnv none)) = 1 ∧
    "-filter_complex" ∉ plan_args (build_ffmpeg oWebcamOff probeFailEnv none) ∧
    "-vf" ∈ plan_args (build_ffmpeg oWebcamOff probeFailEnv none) ∧
    build_ffmpeg oWebcamOn probeFailEnv none ≠
      build_ffmpeg oWebcamOff probeFailEnv none := by
  refine ⟨?_, ?_, ?_, ?_, ?_, ?_⟩ <;> decide

end Octocord
